import Mathlib

/-!
Verification of the risk decision engine of the `mtp-ai-banking` ML service
(`ml-models/app/models/{fraud_model,credit_model,risk_model}.py` with the
constants of `ml-models/app/config.py`).

Embedding choices:
* A Python feature dictionary (`Dict[str, float]`) is a partial map
  `String → Option ℚ`; `features.get(k, d)` is `fget`.  Rationals model the
  exact arithmetic the rule-based paths perform (all literals are decimal).
* A loaded model artifact is an opaque function `List ℚ → ℚ` (the spec treats
  the model-backed path as "invoke an opaque classifier/regressor"); `none`
  is the no-artifact state that selects the deterministic rule fallback.
* Python `int(x)` truncates toward zero: `pyInt`.
* The sparse `factors` dictionary of the credit scorer has exactly three
  possible keys, so it is a structure of `Option` fields; the delinquency
  message interpolates the count, which we keep as the raw count.
-/

namespace RiskEngine

/-- A feature dictionary: partial map from feature name to numeric value. -/
abbrev FeatureSet := String → Option ℚ

/-- `features.get(name, default)`. -/
def fget (f : FeatureSet) (k : String) (d : ℚ) : ℚ := (f k).getD d

/-- The empty feature dictionary `{}`. -/
def emptyFeatures : FeatureSet := fun _ => none

/-- Python `int(x)`: truncation toward zero. -/
def pyInt (x : ℚ) : ℤ := if 0 ≤ x then ⌊x⌋ else ⌈x⌉

/-- `config.py`: `FRAUD_THRESHOLD: float = 0.5`. -/
def FRAUD_THRESHOLD : ℚ := 0.5

/-- `config.py`: `CREDIT_SCORE_MIN: int = 300`. -/
def CREDIT_SCORE_MIN : ℚ := 300

/-- `config.py`: `CREDIT_SCORE_MAX: int = 850`. -/
def CREDIT_SCORE_MAX : ℚ := 850

/-- `_prepare_features`: ordered vector, entry `i` is
`features.get(name_i, 0.0)` (shared shape in fraud and credit models). -/
def prepare_features (names : List String) (f : FeatureSet) : List ℚ :=
  names.map (fun n => fget f n 0)

namespace FraudDetectionModel

/-- `FraudDetectionModel.feature_names` (order fixed). -/
def feature_names : List String :=
  ["amount", "hour", "day_of_week", "transaction_count_24h",
   "transaction_count_7d", "avg_amount_7d", "beneficiary_age_days",
   "device_risk", "location_risk", "user_account_age_days",
   "user_balance", "is_new_beneficiary", "is_unusual_hour",
   "amount_vs_avg_ratio", "velocity_score"]

/-- Result dictionary of `FraudDetectionModel.predict`. -/
structure FraudResult where
  fraud_score : ℚ
  risk_level : String
  is_fraud : Bool
deriving Repr, DecidableEq

/-- `_get_risk_level`: fixed cut points 0.7 / 0.4. -/
def get_risk_level (score : ℚ) : String :=
  if score ≥ 0.7 then "HIGH"
  else if score ≥ 0.4 then "MEDIUM"
  else "LOW"

/-- The additive rule score of `_mock_predict`, including the final
`if score > 1.0: score = 1.0` upper clamp (there is no lower clamp). -/
def mock_score (f : FeatureSet) : ℚ :=
  let amount := fget f "amount" 0
  let beneficiary_age := fget f "beneficiary_age_days" 365
  let txn_count_24h := fget f "transaction_count_24h" 0
  let amount_factor : ℚ :=
    if amount > 200000 then 0.4
    else if amount > 100000 then 0.2
    else if amount > 50000 then 0.1
    else 0
  let beneficiary_factor : ℚ := if beneficiary_age < 7 then 0.3 else 0
  let velocity_factor : ℚ :=
    if txn_count_24h > 10 then 0.3
    else if txn_count_24h > 5 then 0.15
    else 0
  let score := amount_factor + beneficiary_factor + velocity_factor
    + fget f "device_risk" 0 * 0.1 + fget f "location_risk" 0 * 0.1
  if score > 1 then 1 else score

/-- `FraudDetectionModel._mock_predict`. -/
def mock_predict (threshold : ℚ) (f : FeatureSet) : FraudResult :=
  let score := mock_score f
  { fraud_score := score
    risk_level := get_risk_level score
    is_fraud := decide (score ≥ threshold) }

/-- `FraudDetectionModel.predict`: model-backed path when an artifact is
loaded (`proba` is the opaque `predict_proba(...)[0][1]`), otherwise the
rule-based `_mock_predict`. -/
def predict (model : Option (List ℚ → ℚ)) (threshold : ℚ) (f : FeatureSet) :
    FraudResult :=
  match model with
  | none => mock_predict threshold f
  | some proba =>
    let fraud_probability := proba (prepare_features feature_names f)
    { fraud_score := fraud_probability
      risk_level := get_risk_level fraud_probability
      is_fraud := decide (fraud_probability ≥ threshold) }

end FraudDetectionModel

namespace CreditScoringModel

/-- `CreditScoringModel.feature_names` (order fixed). -/
def feature_names : List String :=
  ["account_age_days", "monthly_income", "total_balance",
   "transaction_count_30d", "delinquency_count", "loan_history_count",
   "avg_transaction_amount", "credit_utilization", "savings_ratio"]

/-- The sparse `factors` mapping: three possible keys, each optional.
The delinquency message interpolates the count; we keep the count itself. -/
structure Factors where
  account_age : Option String
  delinquency : Option ℚ
  income : Option String
deriving Repr, DecidableEq

/-- Result dictionary of `CreditScoringModel.predict`. -/
structure CreditResult where
  credit_score : ℤ
  risk_category : String
  score_range : String
  factors : Factors
deriving Repr, DecidableEq

/-- `_get_risk_category`. -/
def get_risk_category (score : ℚ) : String :=
  if score ≥ 750 then "LOW"
  else if score ≥ 700 then "MEDIUM_LOW"
  else if score ≥ 650 then "MEDIUM"
  else if score ≥ 600 then "MEDIUM_HIGH"
  else "HIGH"

/-- `_get_score_range`. -/
def get_score_range (score : ℚ) : String :=
  if score ≥ 750 then "EXCELLENT"
  else if score ≥ 700 then "GOOD"
  else if score ≥ 650 then "FAIR"
  else if score ≥ 600 then "POOR"
  else "VERY_POOR"

/-- `_get_factor_analysis`: note the defaults here are 0, not the
scoring defaults of `_mock_predict`. -/
def get_factor_analysis (f : FeatureSet) : Factors :=
  let account_age := fget f "account_age_days" 0
  let delinquency := fget f "delinquency_count" 0
  let income := fget f "monthly_income" 0
  { account_age :=
      if account_age < 90 then some "New account - negative impact"
      else if account_age > 365 then some "Established account - positive impact"
      else none
    delinquency := if delinquency > 0 then some delinquency else none
    income :=
      if income > 100000 then some "High income - positive impact"
      else if income < 25000 then some "Low income - negative impact"
      else none }

/-- The account-age contribution of `_mock_predict`. -/
def age_factor (account_age : ℚ) : ℚ :=
  if account_age > 365 then 50
  else if account_age > 180 then 30
  else if account_age > 90 then 15
  else 0

/-- The income contribution of `_mock_predict`. -/
def income_factor (income : ℚ) : ℚ :=
  if income > 100000 then 100
  else if income > 50000 then 60
  else if income > 25000 then 30
  else 0

/-- The balance contribution of `_mock_predict`. -/
def balance_factor (balance : ℚ) : ℚ :=
  if balance > 100000 then 50
  else if balance > 50000 then 30
  else 0

/-- The unclamped rule score of `_mock_predict`: base 600 plus the
factors, minus `delinquency * 20`, plus 30 when `loan_history > 0`. -/
def mock_raw_score (f : FeatureSet) : ℚ :=
  let account_age := fget f "account_age_days" 365
  let income := fget f "monthly_income" 50000
  let balance := fget f "total_balance" 100000
  let delinquency := fget f "delinquency_count" 0
  let loan_history := fget f "loan_history_count" 0
  600 + age_factor account_age + income_factor income
    - delinquency * 20
    + (if loan_history > 0 then 30 else 0)
    + balance_factor balance

/-- `max(settings.CREDIT_SCORE_MIN, min(settings.CREDIT_SCORE_MAX, score))`. -/
def clamp_score (score : ℚ) : ℚ :=
  max CREDIT_SCORE_MIN (min CREDIT_SCORE_MAX score)

/-- `CreditScoringModel._mock_predict`. -/
def mock_predict (f : FeatureSet) : CreditResult :=
  let score := clamp_score (mock_raw_score f)
  { credit_score := pyInt score
    risk_category := get_risk_category score
    score_range := get_score_range score
    factors := get_factor_analysis f }

/-- `CreditScoringModel.predict`: model-backed path when a regressor
artifact is loaded (opaque `model.predict([vector])[0]`), otherwise
`_mock_predict`. -/
def predict (model : Option (List ℚ → ℚ)) (f : FeatureSet) : CreditResult :=
  match model with
  | none => mock_predict f
  | some regress =>
    let credit_score := clamp_score (regress (prepare_features feature_names f))
    { credit_score := pyInt credit_score
      risk_category := get_risk_category credit_score
      score_range := get_score_range credit_score
      factors := get_factor_analysis f }

/-- The clamped score each path of `predict` classifies from (stated for
the band-agreement theorem; `predict` itself mirrors the source). -/
def clamped_path_score (model : Option (List ℚ → ℚ)) (f : FeatureSet) : ℚ :=
  match model with
  | none => clamp_score (mock_raw_score f)
  | some regress => clamp_score (regress (prepare_features feature_names f))

end CreditScoringModel

namespace RiskScoringModel

/-- Result dictionary of `RiskScoringModel.predict` (`components` inlined
as the three fields `credit_risk`, `fraud_risk`, `amount_risk`). -/
structure RiskDecision where
  overall_risk_score : ℚ
  risk_category : String
  credit_risk : ℚ
  fraud_risk : ℚ
  amount_risk : ℚ
  credit_score : ℤ
  fraud_score : ℚ
  recommendation : String
deriving Repr, DecidableEq

/-- The credit-feature dictionary the aggregator builds (9 keys, with the
documented per-field defaults). -/
def credit_features (f : FeatureSet) : FeatureSet := fun k =>
  if k = "account_age_days" then some (fget f "account_age_days" 365)
  else if k = "monthly_income" then some (fget f "monthly_income" 50000)
  else if k = "total_balance" then some (fget f "total_balance" 100000)
  else if k = "transaction_count_30d" then some (fget f "transaction_count_30d" 10)
  else if k = "delinquency_count" then some (fget f "delinquency_count" 0)
  else if k = "loan_history_count" then some (fget f "loan_history_count" 0)
  else if k = "avg_transaction_amount" then some (fget f "avg_transaction_amount" 10000)
  else if k = "credit_utilization" then some (fget f "credit_utilization" 0.3)
  else if k = "savings_ratio" then some (fget f "savings_ratio" 0.2)
  else none

/-- The divisor of the derived `amount_vs_avg_ratio` feature:
`max(features.get('avg_amount_7d', 1.0), 1.0)`. -/
def avg_amount_divisor (f : FeatureSet) : ℚ :=
  max (fget f "avg_amount_7d" 1) 1

/-- The fraud-feature dictionary the aggregator builds (15 keys: raw
pass-throughs with defaults plus four derived features). -/
def fraud_features (f : FeatureSet) : FeatureSet := fun k =>
  if k = "amount" then some (fget f "amount" 0)
  else if k = "hour" then some (fget f "hour" 12)
  else if k = "day_of_week" then some (fget f "day_of_week" 3)
  else if k = "transaction_count_24h" then some (fget f "transaction_count_24h" 0)
  else if k = "transaction_count_7d" then some (fget f "transaction_count_7d" 5)
  else if k = "avg_amount_7d" then some (fget f "avg_amount_7d" 10000)
  else if k = "beneficiary_age_days" then some (fget f "beneficiary_age_days" 365)
  else if k = "device_risk" then some (fget f "device_risk" 0)
  else if k = "location_risk" then some (fget f "location_risk" 0)
  else if k = "user_account_age_days" then some (fget f "account_age_days" 365)
  else if k = "user_balance" then some (fget f "total_balance" 100000)
  else if k = "is_new_beneficiary" then
    some (if fget f "beneficiary_age_days" 365 < 7 then 1 else 0)
  else if k = "is_unusual_hour" then
    some (if fget f "hour" 12 < 6 ∨ fget f "hour" 12 > 23 then 1 else 0)
  else if k = "amount_vs_avg_ratio" then
    some (fget f "amount" 0 / avg_amount_divisor f)
  else if k = "velocity_score" then
    some (min (fget f "transaction_count_24h" 0 / 10) 1)
  else none

/-- `_calculate_amount_risk`: strict `>` band comparisons. -/
def calculate_amount_risk (amount : ℚ) : ℚ :=
  if amount > 200000 then 0.8
  else if amount > 100000 then 0.5
  else if amount > 50000 then 0.3
  else 0.1

/-- `_get_risk_category` of the aggregator. -/
def get_risk_category (risk : ℚ) : String :=
  if risk < 0.3 then "LOW"
  else if risk < 0.6 then "MEDIUM"
  else "HIGH"

/-- `_get_recommendation`. -/
def get_recommendation (risk : ℚ) : String :=
  if risk > 0.7 then "BLOCK"
  else if risk > 0.4 then "REVIEW"
  else "APPROVE"

/-- `RiskScoringModel.predict`, parametrised by the (optional) credit and
fraud artifacts and the fraud threshold. -/
def predict (credit_artifact fraud_artifact : Option (List ℚ → ℚ))
    (threshold : ℚ) (f : FeatureSet) : RiskDecision :=
  let credit_result := CreditScoringModel.predict credit_artifact (credit_features f)
  let credit_score := credit_result.credit_score
  let credit_risk : ℚ := 1 - (credit_score : ℚ) / 850
  let fraud_result := FraudDetectionModel.predict fraud_artifact threshold (fraud_features f)
  let fraud_risk := fraud_result.fraud_score
  let amount := fget f "amount" 0
  let amount_risk := calculate_amount_risk amount
  let overall_risk :=
    max 0 (min 1 (credit_risk * 0.4 + fraud_risk * 0.4 + amount_risk * 0.2))
  { overall_risk_score := overall_risk
    risk_category := get_risk_category overall_risk
    credit_risk := credit_risk
    fraud_risk := fraud_risk
    amount_risk := amount_risk
    credit_score := credit_score
    fraud_score := fraud_risk
    recommendation := get_recommendation overall_risk }

end RiskScoringModel

/-! Concrete inputs used by the scenario claims and witnesses. -/

/-- Scenario 1 + Scenario 2 combined input of the spec (Scenario 3). -/
def scenario3Features : FeatureSet := fun k =>
  if k = "amount" then some 250000
  else if k = "beneficiary_age_days" then some 3
  else if k = "transaction_count_24h" then some 12
  else if k = "device_risk" then some 0.8
  else if k = "location_risk" then some 0.6
  else if k = "account_age_days" then some 400
  else if k = "monthly_income" then some 120000
  else if k = "delinquency_count" then some 1
  else if k = "loan_history_count" then some 1
  else if k = "total_balance" then some 150000
  else none

/-- A dictionary carrying only a negative `device_risk`. -/
def negativeDeviceFeatures : FeatureSet := fun k =>
  if k = "device_risk" then some (-10) else none

/-- A dictionary carrying only a high `monthly_income`. -/
def highIncomeFeatures : FeatureSet := fun k =>
  if k = "monthly_income" then some 120000 else none

/-! Helper lemmas shared between the claim theorems. -/

lemma le_clamp_score (x : ℚ) : CREDIT_SCORE_MIN ≤ CreditScoringModel.clamp_score x :=
  le_max_left _ _

lemma clamp_score_le (x : ℚ) : CreditScoringModel.clamp_score x ≤ CREDIT_SCORE_MAX := by
  unfold CreditScoringModel.clamp_score CREDIT_SCORE_MIN CREDIT_SCORE_MAX
  exact max_le (by norm_num) (min_le_left _ _)

lemma pyInt_of_nonneg {x : ℚ} (h : 0 ≤ x) : pyInt x = ⌊x⌋ := by
  unfold pyInt
  exact if_pos h

lemma pyInt_mono_of_nonneg {x y : ℚ} (h0 : 0 ≤ x) (h : x ≤ y) :
    pyInt x ≤ pyInt y := by
  rw [pyInt_of_nonneg h0, pyInt_of_nonneg (le_trans h0 h)]
  exact Int.floor_le_floor h

lemma income_factor_mono {a b : ℚ} (h : a ≤ b) :
    CreditScoringModel.income_factor a ≤ CreditScoringModel.income_factor b := by
  unfold CreditScoringModel.income_factor
  split_ifs <;> linarith

lemma upper_clamp_le_one (a : ℚ) : (if a > 1 then (1 : ℚ) else a) ≤ 1 := by
  split_ifs with h
  · exact le_refl 1
  · exact le_of_not_lt h

lemma upper_clamp_nonneg {a : ℚ} (h : 0 ≤ a) :
    0 ≤ (if a > 1 then (1 : ℚ) else a) := by
  split_ifs
  · exact zero_le_one
  · exact h

/-! Claim theorems. -/

/-- C1 (counterexample): the claim says the rule-based credit prediction on the
empty feature set returns credit_score 600 and risk_category MEDIUM_HIGH; the
code's documented defaults (account age 365, income 50000, balance 100000)
add +30 each, giving 690 and MEDIUM instead. -/
theorem C1_counterexample :
    (CreditScoringModel.mock_predict emptyFeatures).credit_score = 690 ∧
    (CreditScoringModel.mock_predict emptyFeatures).risk_category = "MEDIUM" ∧
    ¬((CreditScoringModel.mock_predict emptyFeatures).credit_score = 600 ∧
      (CreditScoringModel.mock_predict emptyFeatures).risk_category = "MEDIUM_HIGH") := by
  have h1 : (CreditScoringModel.mock_predict emptyFeatures).credit_score = 690 := by
    norm_num [CreditScoringModel.mock_predict, CreditScoringModel.mock_raw_score,
      CreditScoringModel.clamp_score, CreditScoringModel.age_factor,
      CreditScoringModel.income_factor, CreditScoringModel.balance_factor,
      fget, emptyFeatures, CREDIT_SCORE_MIN, CREDIT_SCORE_MAX, pyInt]
  have h2 : (CreditScoringModel.mock_predict emptyFeatures).risk_category = "MEDIUM" := by
    norm_num [CreditScoringModel.mock_predict, CreditScoringModel.mock_raw_score,
      CreditScoringModel.clamp_score, CreditScoringModel.age_factor,
      CreditScoringModel.income_factor, CreditScoringModel.balance_factor,
      fget, emptyFeatures, CREDIT_SCORE_MIN, CREDIT_SCORE_MAX,
      CreditScoringModel.get_risk_category]
  refine ⟨h1, h2, fun hc => ?_⟩
  rw [h1] at hc
  exact absurd hc.1 (by norm_num)

/-- C1 (amended): for the empty feature set the rule-based credit prediction
deterministically returns credit_score 690 (base 600 plus the +30 account-age,
+30 income and +30 balance contributions triggered by the defaults 365, 50000
and 100000), risk_category MEDIUM, score_range FAIR, and factor notes for a
new account and low income; determinism is inherent in the embedding, which is
a pure function of the feature set. -/
theorem C1_amended :
    CreditScoringModel.mock_predict emptyFeatures =
      { credit_score := 690
        risk_category := "MEDIUM"
        score_range := "FAIR"
        factors :=
          { account_age := some "New account - negative impact"
            delinquency := none
            income := some "Low income - negative impact" } } := by
  norm_num [CreditScoringModel.mock_predict, CreditScoringModel.mock_raw_score,
    CreditScoringModel.clamp_score, CreditScoringModel.age_factor,
    CreditScoringModel.income_factor, CreditScoringModel.balance_factor,
    fget, emptyFeatures, CREDIT_SCORE_MIN, CREDIT_SCORE_MAX, pyInt,
    CreditScoringModel.get_risk_category, CreditScoringModel.get_score_range,
    CreditScoringModel.get_factor_analysis]

/-- C2 (counterexample): the claim says the rule-based fraud score is clamped
to [0,1] for every input, including negative device_risk; the code only clamps
above at 1.0, so device_risk = -10 yields fraud_score = -1, outside [0,1]. -/
theorem C2_counterexample :
    (FraudDetectionModel.mock_predict FRAUD_THRESHOLD negativeDeviceFeatures).fraud_score
      = -1 ∧
    ¬(0 ≤ (FraudDetectionModel.mock_predict FRAUD_THRESHOLD
        negativeDeviceFeatures).fraud_score) := by
  have h : (FraudDetectionModel.mock_predict FRAUD_THRESHOLD
      negativeDeviceFeatures).fraud_score = -1 := by
    simp [FraudDetectionModel.mock_predict, FraudDetectionModel.mock_score,
      fget, negativeDeviceFeatures]
    norm_num
  refine ⟨h, ?_⟩
  rw [h]
  norm_num

/-- C2 (amended): the rule-based fraud score is always at most 1 (the code
clamps above), and it is nonnegative — hence in [0,1] — whenever the
device_risk and location_risk values (after defaulting to 0) are nonnegative;
with negative risk inputs the score can be negative. -/
theorem C2_amended (threshold : ℚ) (f : FeatureSet) :
    (FraudDetectionModel.mock_predict threshold f).fraud_score ≤ 1 ∧
    (0 ≤ fget f "device_risk" 0 → 0 ≤ fget f "location_risk" 0 →
      0 ≤ (FraudDetectionModel.mock_predict threshold f).fraud_score) := by
  have hscore : (FraudDetectionModel.mock_predict threshold f).fraud_score
      = FraudDetectionModel.mock_score f := rfl
  rw [hscore]
  unfold FraudDetectionModel.mock_score
  constructor
  · exact upper_clamp_le_one _
  · intro hd hl
    apply upper_clamp_nonneg
    have hA : (0:ℚ) ≤
        (if fget f "amount" 0 > 200000 then 0.4
          else if fget f "amount" 0 > 100000 then 0.2
          else if fget f "amount" 0 > 50000 then 0.1
          else 0) := by split_ifs <;> norm_num
    have hB : (0:ℚ) ≤ (if fget f "beneficiary_age_days" 365 < 7 then 0.3 else 0) := by
      split_ifs <;> norm_num
    have hV : (0:ℚ) ≤
        (if fget f "transaction_count_24h" 0 > 10 then 0.3
          else if fget f "transaction_count_24h" 0 > 5 then 0.15
          else 0) := by split_ifs <;> norm_num
    have hD : (0:ℚ) ≤ fget f "device_risk" 0 * 0.1 := mul_nonneg hd (by norm_num)
    have hL : (0:ℚ) ≤ fget f "location_risk" 0 * 0.1 := mul_nonneg hl (by norm_num)
    exact add_nonneg (add_nonneg (add_nonneg (add_nonneg hA hB) hV) hD) hL

/-- C2 witness: the amended bound instantiated at the empty feature set, whose
device_risk and location_risk default to 0. -/
theorem C2_amended_witness :
    (FraudDetectionModel.mock_predict FRAUD_THRESHOLD emptyFeatures).fraud_score ≤ 1 ∧
    0 ≤ (FraudDetectionModel.mock_predict FRAUD_THRESHOLD emptyFeatures).fraud_score :=
  ⟨(C2_amended FRAUD_THRESHOLD emptyFeatures).1,
    (C2_amended FRAUD_THRESHOLD emptyFeatures).2
      (by norm_num [fget, emptyFeatures]) (by norm_num [fget, emptyFeatures])⟩

/-- C7: the aggregator's amount-risk bands use strict comparisons, so exactly
50000 falls to the 0.1 band while 50001 gives 0.3; similarly at the 100000 and
200000 boundaries. -/
theorem C7_amount_boundary :
    RiskScoringModel.calculate_amount_risk 50000 = 0.1 ∧
    RiskScoringModel.calculate_amount_risk 50001 = 0.3 ∧
    RiskScoringModel.calculate_amount_risk 100000 = 0.3 ∧
    RiskScoringModel.calculate_amount_risk 100001 = 0.5 ∧
    RiskScoringModel.calculate_amount_risk 200000 = 0.5 ∧
    RiskScoringModel.calculate_amount_risk 200001 = 0.8 := by
  norm_num [RiskScoringModel.calculate_amount_risk]

/-- C3 (counterexample): on the combined Scenario 1 + Scenario 2 input the
aggregator returns overall_risk_score 246/425 ≈ 0.5788, not the claimed
0.4188: the claimed value omits the 0.2·0.8 amount term from the weighted
sum 0.4·(1 − 810/850) + 0.4·1.0 + 0.2·0.8. -/
theorem C3_counterexample :
    (RiskScoringModel.predict none none FRAUD_THRESHOLD
        scenario3Features).overall_risk_score = 246/425 ∧
    (RiskScoringModel.predict none none FRAUD_THRESHOLD
        scenario3Features).overall_risk_score ≠ 0.4188 := by
  have h : (RiskScoringModel.predict none none FRAUD_THRESHOLD
      scenario3Features).overall_risk_score = 246/425 := by
    simp [RiskScoringModel.predict, RiskScoringModel.credit_features,
      RiskScoringModel.fraud_features, RiskScoringModel.avg_amount_divisor,
      RiskScoringModel.calculate_amount_risk,
      CreditScoringModel.predict, CreditScoringModel.mock_predict,
      CreditScoringModel.mock_raw_score, CreditScoringModel.clamp_score,
      CreditScoringModel.age_factor, CreditScoringModel.income_factor,
      CreditScoringModel.balance_factor,
      FraudDetectionModel.predict, FraudDetectionModel.mock_predict,
      FraudDetectionModel.mock_score,
      pyInt, CREDIT_SCORE_MIN, CREDIT_SCORE_MAX, FRAUD_THRESHOLD,
      fget, scenario3Features]
    norm_num
  refine ⟨h, ?_⟩
  rw [h]
  norm_num

/-- C3 (amended): on the combined Scenario 1 + Scenario 2 input and with no
artifacts loaded, the aggregator returns credit_risk = 1 − 810/850 = 4/85,
fraud_risk 1, amount_risk 0.8, overall_risk_score 246/425 ≈ 0.5788 (the
clamped 0.4·(4/85) + 0.4·1 + 0.2·0.8), risk_category MEDIUM and
recommendation REVIEW. -/
theorem C3_amended :
    RiskScoringModel.predict none none FRAUD_THRESHOLD scenario3Features =
      { overall_risk_score := 246/425
        risk_category := "MEDIUM"
        credit_risk := 4/85
        fraud_risk := 1
        amount_risk := 0.8
        credit_score := 810
        fraud_score := 1
        recommendation := "REVIEW" } := by
  simp [RiskScoringModel.predict, RiskScoringModel.credit_features,
    RiskScoringModel.fraud_features, RiskScoringModel.avg_amount_divisor,
    RiskScoringModel.calculate_amount_risk, RiskScoringModel.get_risk_category,
    RiskScoringModel.get_recommendation,
    CreditScoringModel.predict, CreditScoringModel.mock_predict,
    CreditScoringModel.mock_raw_score, CreditScoringModel.clamp_score,
    CreditScoringModel.age_factor, CreditScoringModel.income_factor,
    CreditScoringModel.balance_factor, CreditScoringModel.get_risk_category,
    CreditScoringModel.get_score_range, CreditScoringModel.get_factor_analysis,
    FraudDetectionModel.predict, FraudDetectionModel.mock_predict,
    FraudDetectionModel.mock_score, FraudDetectionModel.get_risk_level,
    pyInt, CREDIT_SCORE_MIN, CREDIT_SCORE_MAX, FRAUD_THRESHOLD,
    fget, scenario3Features]
  norm_num

/-- C4: with no artifacts loaded, the aggregator's returned overall_risk_score
is exactly the [0,1]-clamped weighted sum 0.4·(1 − credit_score/850) +
0.4·fraud_score + 0.2·amount_risk of the values returned in the same
decision. -/
theorem C4_composition (threshold : ℚ) (f : FeatureSet) :
    (RiskScoringModel.predict none none threshold f).overall_risk_score =
      max 0 (min 1
        (0.4 * (1 - ((RiskScoringModel.predict none none threshold f).credit_score : ℚ) / 850)
          + 0.4 * (RiskScoringModel.predict none none threshold f).fraud_score
          + 0.2 * (RiskScoringModel.predict none none threshold f).amount_risk)) := by
  simp only [RiskScoringModel.predict]
  congr 2
  ring

/-- C5: in both execution paths the fraud scorer returns
is_fraud = (fraud_score ≥ threshold), its risk_level is the fixed-cut-point
classification of the returned fraud_score, and the risk_level does not depend
on the threshold. -/
theorem C5_fraud_invariant (model : Option (List ℚ → ℚ)) (threshold : ℚ)
    (f : FeatureSet) :
    ((FraudDetectionModel.predict model threshold f).is_fraud
      = decide ((FraudDetectionModel.predict model threshold f).fraud_score ≥ threshold)) ∧
    ((FraudDetectionModel.predict model threshold f).risk_level
      = FraudDetectionModel.get_risk_level
          ((FraudDetectionModel.predict model threshold f).fraud_score)) ∧
    (∀ t2 : ℚ, (FraudDetectionModel.predict model t2 f).risk_level
      = (FraudDetectionModel.predict model threshold f).risk_level) := by
  cases model <;>
    simp [FraudDetectionModel.predict, FraudDetectionModel.mock_predict]

/-- C6: in both execution paths the credit scorer classifies from the score
clamped into [CREDIT_SCORE_MIN, CREDIT_SCORE_MAX] = [300, 850]: the returned
credit_score is the integer truncation of that clamped score and lies in
[300, 850], and risk_category / score_range are the clamped score's bands. -/
theorem C6_credit_clamp (model : Option (List ℚ → ℚ)) (f : FeatureSet) :
    CREDIT_SCORE_MIN = 300 ∧ CREDIT_SCORE_MAX = 850 ∧
    (CreditScoringModel.predict model f).credit_score
        = pyInt (CreditScoringModel.clamped_path_score model f) ∧
    (CreditScoringModel.predict model f).risk_category
        = CreditScoringModel.get_risk_category
            (CreditScoringModel.clamped_path_score model f) ∧
    (CreditScoringModel.predict model f).score_range
        = CreditScoringModel.get_score_range
            (CreditScoringModel.clamped_path_score model f) ∧
    CREDIT_SCORE_MIN ≤ CreditScoringModel.clamped_path_score model f ∧
    CreditScoringModel.clamped_path_score model f ≤ CREDIT_SCORE_MAX ∧
    (300 : ℤ) ≤ (CreditScoringModel.predict model f).credit_score ∧
    (CreditScoringModel.predict model f).credit_score ≤ 850 := by
  have hmin : CREDIT_SCORE_MIN = 300 := rfl
  have hmax : CREDIT_SCORE_MAX = 850 := rfl
  have heq : (CreditScoringModel.predict model f).credit_score
      = pyInt (CreditScoringModel.clamped_path_score model f) := by
    cases model <;>
      simp [CreditScoringModel.predict, CreditScoringModel.mock_predict,
        CreditScoringModel.clamped_path_score]
  have hcat : (CreditScoringModel.predict model f).risk_category
      = CreditScoringModel.get_risk_category
          (CreditScoringModel.clamped_path_score model f) := by
    cases model <;>
      simp [CreditScoringModel.predict, CreditScoringModel.mock_predict,
        CreditScoringModel.clamped_path_score]
  have hrange : (CreditScoringModel.predict model f).score_range
      = CreditScoringModel.get_score_range
          (CreditScoringModel.clamped_path_score model f) := by
    cases model <;>
      simp [CreditScoringModel.predict, CreditScoringModel.mock_predict,
        CreditScoringModel.clamped_path_score]
  have hlo : CREDIT_SCORE_MIN ≤ CreditScoringModel.clamped_path_score model f := by
    cases model <;> exact le_clamp_score _
  have hhi : CreditScoringModel.clamped_path_score model f ≤ CREDIT_SCORE_MAX := by
    cases model <;> exact clamp_score_le _
  have h0 : (0:ℚ) ≤ CreditScoringModel.clamped_path_score model f :=
    le_trans (by norm_num [CREDIT_SCORE_MIN]) hlo
  have hilo : (300 : ℤ) ≤ (CreditScoringModel.predict model f).credit_score := by
    rw [heq, pyInt_of_nonneg h0]
    refine Int.le_floor.mpr ?_
    rw [hmin] at hlo
    exact_mod_cast hlo
  have hihi : (CreditScoringModel.predict model f).credit_score ≤ 850 := by
    rw [heq, pyInt_of_nonneg h0]
    have h850 : ⌊(850:ℚ)⌋ = 850 := by
      rw [show (850:ℚ) = ((850:ℤ):ℚ) by norm_num, Int.floor_intCast]
    rw [hmax] at hhi
    calc ⌊CreditScoringModel.clamped_path_score model f⌋
        ≤ ⌊(850:ℚ)⌋ := Int.floor_le_floor hhi
      _ = 850 := h850
  exact ⟨hmin, hmax, heq, hcat, hrange, hlo, hhi, hilo, hihi⟩

/-- C8: holding every other key fixed, the rule-based credit score is
monotone non-decreasing in monthly_income (after the documented 50000
default is applied to a missing key). -/
theorem C8_income_monotone (f1 f2 : FeatureSet)
    (hkeys : ∀ k, k ≠ "monthly_income" → f1 k = f2 k)
    (hinc : fget f1 "monthly_income" 50000 ≤ fget f2 "monthly_income" 50000) :
    (CreditScoringModel.mock_predict f1).credit_score
      ≤ (CreditScoringModel.mock_predict f2).credit_score := by
  have fget_congr : ∀ (k : String) (d : ℚ), k ≠ "monthly_income" →
      fget f1 k d = fget f2 k d := by
    intro k d hk
    unfold fget
    rw [hkeys k hk]
  have hraw : CreditScoringModel.mock_raw_score f1
      ≤ CreditScoringModel.mock_raw_score f2 := by
    unfold CreditScoringModel.mock_raw_score
    dsimp only
    rw [fget_congr "account_age_days" 365 (by decide),
      fget_congr "total_balance" 100000 (by decide),
      fget_congr "delinquency_count" 0 (by decide),
      fget_congr "loan_history_count" 0 (by decide)]
    have := income_factor_mono hinc
    linarith
  have hclamp : CreditScoringModel.clamp_score (CreditScoringModel.mock_raw_score f1)
      ≤ CreditScoringModel.clamp_score (CreditScoringModel.mock_raw_score f2) :=
    max_le_max le_rfl (min_le_min le_rfl hraw)
  have h0 : (0:ℚ) ≤ CreditScoringModel.clamp_score (CreditScoringModel.mock_raw_score f1) :=
    le_trans (by norm_num [CREDIT_SCORE_MIN]) (le_clamp_score _)
  simp only [CreditScoringModel.mock_predict]
  exact pyInt_mono_of_nonneg h0 hclamp

/-- C8 witness: the monotonicity applied to the empty dictionary (income
defaults to 50000) versus a dictionary holding only monthly_income 120000. -/
theorem C8_income_monotone_witness :
    (CreditScoringModel.mock_predict emptyFeatures).credit_score
      ≤ (CreditScoringModel.mock_predict highIncomeFeatures).credit_score :=
  C8_income_monotone emptyFeatures highIncomeFeatures
    (fun k hk => by simp [emptyFeatures, highIncomeFeatures, hk])
    (by norm_num [fget, emptyFeatures, highIncomeFeatures])

/-- C9: the divisor of the aggregator's derived amount_vs_avg_ratio feature is
max(avg_amount_7d default 1, 1), which is at least 1 — hence nonzero for every
input, including missing, zero or negative avg_amount_7d — and the ratio the
aggregator stores is the true quotient: multiplying back by the divisor
recovers the amount. -/
theorem C9_ratio_total (f : FeatureSet) :
    1 ≤ RiskScoringModel.avg_amount_divisor f ∧
    RiskScoringModel.avg_amount_divisor f ≠ 0 ∧
    fget f "amount" 0 / RiskScoringModel.avg_amount_divisor f
        * RiskScoringModel.avg_amount_divisor f = fget f "amount" 0 ∧
    RiskScoringModel.fraud_features f "amount_vs_avg_ratio"
      = some (fget f "amount" 0 / RiskScoringModel.avg_amount_divisor f) := by
  have h1 : 1 ≤ RiskScoringModel.avg_amount_divisor f := le_max_right _ _
  have h0 : RiskScoringModel.avg_amount_divisor f ≠ 0 :=
    (lt_of_lt_of_le zero_lt_one h1).ne'
  refine ⟨h1, h0, div_mul_cancel₀ _ h0, ?_⟩
  simp [RiskScoringModel.fraud_features]

/-- C10: when account_age_days is absent, the rule-based credit score uses the
default 365 and so adds the +30 bonus of the >180 band, while the factor
analysis of the same returned result defaults the age to 0 and reports
"New account - negative impact": one prediction treats the account as both
established and new. -/
theorem C10_account_age_inconsistency (f : FeatureSet)
    (h : f "account_age_days" = none) :
    CreditScoringModel.age_factor (fget f "account_age_days" 365) = 30 ∧
    CreditScoringModel.mock_raw_score f =
      600 + 30 + CreditScoringModel.income_factor (fget f "monthly_income" 50000)
        - fget f "delinquency_count" 0 * 20
        + (if fget f "loan_history_count" 0 > 0 then 30 else 0)
        + CreditScoringModel.balance_factor (fget f "total_balance" 100000) ∧
    (CreditScoringModel.mock_predict f).factors.account_age
      = some "New account - negative impact" := by
  have hage : fget f "account_age_days" 365 = 365 := by simp [fget, h]
  have hfac : CreditScoringModel.age_factor 365 = 30 := by
    norm_num [CreditScoringModel.age_factor]
  refine ⟨by rw [hage, hfac], ?_, ?_⟩
  · simp only [CreditScoringModel.mock_raw_score, hage, hfac]
  · have hage0 : fget f "account_age_days" 0 = 0 := by simp [fget, h]
    simp [CreditScoringModel.mock_predict, CreditScoringModel.get_factor_analysis,
      hage0]

/-- C10 witness: the inconsistency exhibited on the empty feature set, where
account_age_days is absent. -/
theorem C10_account_age_inconsistency_witness :
    CreditScoringModel.age_factor (fget emptyFeatures "account_age_days" 365) = 30 ∧
    CreditScoringModel.mock_raw_score emptyFeatures =
      600 + 30
        + CreditScoringModel.income_factor (fget emptyFeatures "monthly_income" 50000)
        - fget emptyFeatures "delinquency_count" 0 * 20
        + (if fget emptyFeatures "loan_history_count" 0 > 0 then 30 else 0)
        + CreditScoringModel.balance_factor (fget emptyFeatures "total_balance" 100000) ∧
    (CreditScoringModel.mock_predict emptyFeatures).factors.account_age
      = some "New account - negative impact" :=
  C10_account_age_inconsistency emptyFeatures rfl

end RiskEngine
